import Mathlib

/-!
Shallow embedding of `climin`'s Adam optimizer (`src/climin/adam.py`).

Real-valued model: Python/numpy floating point scalars and arrays are
modelled as real numbers and functions `Fin n → ℝ`; numpy's element-wise
arithmetic becomes pointwise arithmetic on such functions, and `x ** 0.5`
becomes `Real.sqrt`.  The gradient callable `fprime` may raise: it is
modelled as returning `Except E (Fin n → ℝ)` where `E` is the type of
exception values, which `_iterate` propagates unmodified together with the
object state left behind at the point the exception escaped.
-/

namespace Climin

/-- The attribute state of an `Adam` object (`src/climin/adam.py`).
`fprime` and `wrt` come from `Minimizer.__init__` via
`super().__init__(wrt, args=args)`; the remaining fields are the Adam
hyperparameters and per-step moment state set in `Adam.__init__` and
mutated by `Adam._iterate`.  `n` is the length of the parameter vector,
`A` the type of one batch descriptor (the `(args, kwargs)` pair drawn from
`self.args`), `E` the type of exception values `fprime` may raise. -/
structure Adam (n : ℕ) (A : Type) (E : Type) where
  fprime : (Fin n → ℝ) → A → Except E (Fin n → ℝ)
  wrt : Fin n → ℝ
  step_rate : ℝ
  decay_mom1 : ℝ
  decay_mom2 : ℝ
  offset : ℝ
  momentum : Bool
  est_mom1_b : Fin n → ℝ
  est_mom2_b : Fin n → ℝ
  decay_mom1_pow : ℝ
  decay_mom2_pow : ℝ
  step : Fin n → ℝ
  n_iter : ℕ

namespace Adam

variable {n : ℕ} {A E : Type}

/-- One pass of the loop body of `Adam._iterate` (adam.py lines 164-201),
fed one batch descriptor `args`.  Mirrors the source order: the decay
powers are multiplied (lines 173-174) *before* the gradient is evaluated
(line 176); if `fprime` raises, the exception value is returned unmodified
together with the object state as it stands at that point
(`Except.error`), otherwise the updated object is returned (`Except.ok`).
-/
noncomputable def iterate (s : Adam n A E) (args : A) :
    Except (E × Adam n A E) (Adam n A E) :=
  let dm1 := s.decay_mom1
  let dm2 := s.decay_mom2
  let o := s.offset
  let est_mom1_b_m1 := s.est_mom1_b
  let est_mom2_b_m1 := s.est_mom2_b
  let s1 := { s with
    decay_mom1_pow := s.decay_mom1_pow * (1 - dm1)
    decay_mom2_pow := s.decay_mom2_pow * (1 - dm2) }
  match s1.fprime s1.wrt args with
  | .error e => .error (e, s1)
  | .ok gradient =>
    let est_mom1_b : Fin n → ℝ :=
      fun i => dm1 * gradient i + (1 - dm1) * est_mom1_b_m1 i
    let est_mom2_b : Fin n → ℝ :=
      fun i => dm2 * gradient i ^ 2 + (1 - dm2) * est_mom2_b_m1 i
    let step : Fin n → ℝ :=
      if !s1.momentum then
        let rate_t := s1.step_rate * Real.sqrt (1 - s1.decay_mom2_pow) /
          (1 - s1.decay_mom1_pow)
        fun i => rate_t * est_mom1_b i / (Real.sqrt (est_mom2_b i) + o)
      else
        fun i =>
          let est_mom1 := (1 - dm1) * est_mom1_b i /
              (1 - (1 - dm1) * s1.decay_mom1_pow)
            + dm1 * gradient i / (1 - s1.decay_mom1_pow)
          let est_mom2 := est_mom2_b i / (1 - s1.decay_mom2_pow)
          s1.step_rate * est_mom1 / (Real.sqrt est_mom2 + o)
    .ok { s1 with
      est_mom1_b := est_mom1_b
      est_mom2_b := est_mom2_b
      wrt := fun i => s1.wrt i - step i
      step := step
      n_iter := s1.n_iter + 1 }

/-- `state_fields` (adam.py line 93): the names of the checkpoint fields. -/
def state_fields : List String :=
  ["n_iter", "step_rate", "decay_mom1", "decay_mom2", "step", "offset",
   "est_mom1_b", "est_mom2_b", "decay_mom1_pow", "decay_mom2_pow"]

/-- Python exception outcomes of `Adam.__init__`: the explicit
`ValueError` raises (adam.py lines 138-141), and the `ZeroDivisionError`
that Python float division raises when the stability check
`(1 - decay_mom1 * 2) / (1 - decay_mom2) ** 0.5` (line 142) has a zero
denominator. -/
inductive InitError where
  | valueError (msg : String)
  | zeroDivisionError
deriving DecidableEq

/-- The attribute record built by a successful `Adam.__init__`
(adam.py lines 150-162).  `fprime` and `wrt` are stored by the base
constructor; moments start at 0, the decay powers at 1, `step` at 0.

Modelled from the spec (one field): `climin/base.py` (`Minimizer.__init__`)
is not under src/; per the spec ("iteration counter ... starting at 0",
and the adam.py docstring table: `t` / `n_iter`, "Number of iterations,
starting at 0") it initialises `n_iter := 0`. -/
def fresh (fp : (Fin n → ℝ) → A → Except E (Fin n → ℝ)) (w : Fin n → ℝ)
    (step_rate decay_mom1 decay_mom2 : ℝ) (momentum : Bool) (offset : ℝ) :
    Adam n A E :=
  { fprime := fp
    wrt := w
    step_rate := step_rate
    decay_mom1 := decay_mom1
    decay_mom2 := decay_mom2
    offset := offset
    momentum := momentum
    est_mom1_b := fun _ => 0
    est_mom2_b := fun _ => 0
    decay_mom1_pow := 1
    decay_mom2_pow := 1
    step := fun _ => 0
    n_iter := 0 }

/-- Whether `Adam.__init__` emits the convergence-stability warning
(adam.py lines 142-145): it warns unless
`(1 - decay_mom1 * 2) / (1 - decay_mom2) ** 0.5 < 1`.
Only reachable when the division does not itself raise, i.e. when
`decay_mom2 < 1`. -/
def stabilityWarned (decay_mom1 decay_mom2 : ℝ) : Prop :=
  ¬ ((1 - decay_mom1 * 2) / Real.sqrt (1 - decay_mom2) < 1)

/-- The stability condition as the spec's sentence words it —
`(1 − 2·decay_mom1) / sqrt(decay_mom2) < 1` — kept separate so it can be
compared against the condition the code actually tests
(`stabilityWarned`). -/
def specStabilityCondition (decay_mom1 decay_mom2 : ℝ) : Prop :=
  (1 - 2 * decay_mom1) / Real.sqrt decay_mom2 < 1

/-- `Adam.__init__` (adam.py lines 95-162).  The two domain checks raise
`ValueError` before any attribute is assigned; the stability check then
divides by `(1 - decay_mom2) ** 0.5`, which in Python raises
`ZeroDivisionError` when that denominator is `0.0` (i.e. when
`decay_mom2 = 1`); otherwise construction succeeds with the `fresh`
attribute record.  The stability and deprecated-`decay` warnings do not
alter the constructed state; the former is modelled by the predicate
`stabilityWarned`. -/
noncomputable def init (fp : (Fin n → ℝ) → A → Except E (Fin n → ℝ))
    (w : Fin n → ℝ) (step_rate decay_mom1 decay_mom2 : ℝ) (momentum : Bool)
    (offset : ℝ) : Except InitError (Adam n A E) :=
  if ¬ (0 < decay_mom1 ∧ decay_mom1 ≤ 1) then
    .error (.valueError "decay_mom1 has to lie in (0, 1]")
  else if ¬ (0 < decay_mom2 ∧ decay_mom2 ≤ 1) then
    .error (.valueError "decay_mom2 has to lie in (0, 1]")
  else if Real.sqrt (1 - decay_mom2) = 0 then
    .error .zeroDivisionError
  else
    .ok (fresh fp w step_rate decay_mom1 decay_mom2 momentum offset)

/-- Driving the generator: pull one step per batch descriptor in `l`, in
order, stopping (with the escaped exception and the state left behind) if
`fprime` raises. -/
noncomputable def run (s : Adam n A E) : List A → Except (E × Adam n A E) (Adam n A E)
  | [] => .ok s
  | a :: l =>
    match s.iterate a with
    | .error e => .error e
    | .ok s' => run s' l

/-- A checkpoint: one value per name in `state_fields` (adam.py line 93),
in that order. -/
structure State (n : ℕ) where
  n_iter : ℕ
  step_rate : ℝ
  decay_mom1 : ℝ
  decay_mom2 : ℝ
  step : Fin n → ℝ
  offset : ℝ
  est_mom1_b : Fin n → ℝ
  est_mom2_b : Fin n → ℝ
  decay_mom1_pow : ℝ
  decay_mom2_pow : ℝ

/-- Modelled from the spec: the checkpoint-extraction half of the base
class (`climin/base.py`, not under src/) — "exposes
`extractState() -> OptimizerState` (a snapshot of exactly the fields
enumerated in §3)", the fields being those named by `Adam.state_fields`. -/
def extractState (s : Adam n A E) : State n :=
  { n_iter := s.n_iter
    step_rate := s.step_rate
    decay_mom1 := s.decay_mom1
    decay_mom2 := s.decay_mom2
    step := s.step
    offset := s.offset
    est_mom1_b := s.est_mom1_b
    est_mom2_b := s.est_mom2_b
    decay_mom1_pow := s.decay_mom1_pow
    decay_mom2_pow := s.decay_mom2_pow }

/-- Modelled from the spec: the checkpoint-restoration half of the base
class (`climin/base.py`, not under src/) — "`restoreState(OptimizerState)`
(overwrites those fields; does not touch the ParameterVector or
GradientFunction references)". -/
def restoreState (s : Adam n A E) (st : State n) : Adam n A E :=
  { s with
    n_iter := st.n_iter
    step_rate := st.step_rate
    decay_mom1 := st.decay_mom1
    decay_mom2 := st.decay_mom2
    step := st.step
    offset := st.offset
    est_mom1_b := st.est_mom1_b
    est_mom2_b := st.est_mom2_b
    decay_mom1_pow := st.decay_mom1_pow
    decay_mom2_pow := st.decay_mom2_pow }

/-- The object state after the two decay-power assignments of
`Adam._iterate` (adam.py lines 173-174) and before anything else of the
loop body has run — in particular, the state the object is left in when
the gradient call on line 176 raises. -/
def powAdvanced (s : Adam n A E) : Adam n A E :=
  { s with
    decay_mom1_pow := s.decay_mom1_pow * (1 - s.decay_mom1)
    decay_mom2_pow := s.decay_mom2_pow * (1 - s.decay_mom2) }

/-- The successor state `Adam._iterate` commits once the gradient call has
returned `gradient` (the `Except.ok` branch of `iterate`, factored out so
that proofs and witnesses can name it). -/
noncomputable def postState (s : Adam n A E) (gradient : Fin n → ℝ) :
    Adam n A E :=
  let dm1 := s.decay_mom1
  let dm2 := s.decay_mom2
  let o := s.offset
  let est_mom1_b_m1 := s.est_mom1_b
  let est_mom2_b_m1 := s.est_mom2_b
  let s1 := powAdvanced s
  let est_mom1_b : Fin n → ℝ :=
    fun i => dm1 * gradient i + (1 - dm1) * est_mom1_b_m1 i
  let est_mom2_b : Fin n → ℝ :=
    fun i => dm2 * gradient i ^ 2 + (1 - dm2) * est_mom2_b_m1 i
  let step : Fin n → ℝ :=
    if !s1.momentum then
      let rate_t := s1.step_rate * Real.sqrt (1 - s1.decay_mom2_pow) /
        (1 - s1.decay_mom1_pow)
      fun i => rate_t * est_mom1_b i / (Real.sqrt (est_mom2_b i) + o)
    else
      fun i =>
        let est_mom1 := (1 - dm1) * est_mom1_b i /
            (1 - (1 - dm1) * s1.decay_mom1_pow)
          + dm1 * gradient i / (1 - s1.decay_mom1_pow)
        let est_mom2 := est_mom2_b i / (1 - s1.decay_mom2_pow)
        s1.step_rate * est_mom1 / (Real.sqrt est_mom2 + o)
  { s1 with
    est_mom1_b := est_mom1_b
    est_mom2_b := est_mom2_b
    wrt := fun i => s1.wrt i - step i
    step := step
    n_iter := s1.n_iter + 1 }

/-- The relation the spec states between the cumulative-product fields and
the iteration counter: `decay_mom1_pow = (1 − decay_mom1)^t` and
`decay_mom2_pow = (1 − decay_mom2)^t` with `t = n_iter`. -/
def powInvariant (s : Adam n A E) : Prop :=
  s.decay_mom1_pow = (1 - s.decay_mom1) ^ s.n_iter ∧
  s.decay_mom2_pow = (1 - s.decay_mom2) ^ s.n_iter

/-- A concrete mid-run standard-mode (momentum = false) instance on a
one-element parameter vector, used by witnesses.  Its gradient function
always returns the constant vector 2. -/
noncomputable def sampleStd : Adam 1 Unit Unit :=
  { fprime := fun _ _ => Except.ok (fun _ => 2)
    wrt := fun _ => 5
    step_rate := 1/2
    decay_mom1 := 1/10
    decay_mom2 := 1/100
    offset := 1/1000
    momentum := false
    est_mom1_b := fun _ => 3
    est_mom2_b := fun _ => 4
    decay_mom1_pow := 1/2
    decay_mom2_pow := 1/4
    step := fun _ => 0
    n_iter := 7 }

/-- `sampleStd` with the Nesterov switch on, used by witnesses. -/
noncomputable def sampleNes : Adam 1 Unit Unit :=
  { sampleStd with momentum := true }

/-- A concrete instance whose gradient function always raises (with
exception value `()`), used by witnesses and counterexamples. -/
noncomputable def sampleErr : Adam 1 Unit Unit :=
  { sampleStd with fprime := fun _ _ => Except.error () }

/-- A concrete freshly-constructed standard-mode instance, used by
witnesses. -/
noncomputable def freshSample : Adam 1 Unit Unit :=
  fresh (fun _ _ => Except.ok (fun _ => 2)) (fun _ => 5)
    (1/2) (1/10) (1/100) false (1/1000)

theorem run_nil (s : Adam n A E) : run s [] = Except.ok s := rfl

theorem run_cons (s : Adam n A E) (a : A) (l : List A) :
    run s (a :: l) =
      match s.iterate a with
      | .error e => .error e
      | .ok s' => run s' l := rfl

theorem iterate_gradient_ok {s : Adam n A E} {args : A} {g : Fin n → ℝ}
    (h : s.fprime s.wrt args = Except.ok g) :
    s.iterate args = Except.ok (s.postState g) := by
  simp only [iterate, postState, powAdvanced, h]

theorem iterate_gradient_error {s : Adam n A E} {args : A} {e : E}
    (h : s.fprime s.wrt args = Except.error e) :
    s.iterate args = Except.error (e, s.powAdvanced) := by
  simp only [iterate, powAdvanced, h]

theorem iterate_ok_elim {s : Adam n A E} {args : A} {s' : Adam n A E}
    (h : s.iterate args = Except.ok s') :
    ∃ g, s.fprime s.wrt args = Except.ok g ∧ s' = s.postState g := by
  cases hfp : s.fprime s.wrt args with
  | error e =>
    rw [iterate_gradient_error hfp] at h
    simp at h
  | ok g =>
    rw [iterate_gradient_ok hfp] at h
    exact ⟨g, rfl, (Except.ok.inj h).symm⟩

/-- C1: in standard mode (momentum = false), a completed iteration with
gradient `g` updates the biased moments to
`m = decay_mom1·g + (1 − decay_mom1)·m_prev` and
`v = decay_mom2·g² + (1 − decay_mom2)·v_prev` element-wise, advances both
decay powers, computes the effective rate
`α_t = step_rate · sqrt(1 − decay_mom2_pow) / (1 − decay_mom1_pow)` from
the already-advanced powers, computes
`step = α_t · m / (sqrt v + offset)`, subtracts it from the parameter
vector in place, and records it in the `step` field. -/
theorem standard_mode_step (s : Adam n A E) (args : A) (g : Fin n → ℝ)
    (s' : Adam n A E) (hm : s.momentum = false)
    (hg : s.fprime s.wrt args = Except.ok g)
    (h : s.iterate args = Except.ok s') :
    s'.est_mom1_b =
      (fun i => s.decay_mom1 * g i + (1 - s.decay_mom1) * s.est_mom1_b i) ∧
    s'.est_mom2_b =
      (fun i => s.decay_mom2 * g i ^ 2 + (1 - s.decay_mom2) * s.est_mom2_b i) ∧
    s'.decay_mom1_pow = s.decay_mom1_pow * (1 - s.decay_mom1) ∧
    s'.decay_mom2_pow = s.decay_mom2_pow * (1 - s.decay_mom2) ∧
    s'.step = (fun i =>
      s.step_rate * Real.sqrt (1 - s'.decay_mom2_pow) / (1 - s'.decay_mom1_pow) *
        s'.est_mom1_b i / (Real.sqrt (s'.est_mom2_b i) + s.offset)) ∧
    s'.wrt = (fun i => s.wrt i - s'.step i) := by
  rw [iterate_gradient_ok hg] at h
  obtain rfl : s' = s.postState g := (Except.ok.inj h).symm
  refine ⟨rfl, rfl, rfl, rfl, ?_, ?_⟩
  · simp [postState, powAdvanced, hm]
  · rfl

/-- Witness for C1 at `sampleStd` with gradient constantly 2. -/
theorem standard_mode_step_witness :
    sampleStd.momentum = false ∧
    sampleStd.fprime sampleStd.wrt () = Except.ok (fun _ => 2) ∧
    sampleStd.iterate () = Except.ok (sampleStd.postState (fun _ => 2)) ∧
    ((sampleStd.postState (fun _ => 2)).est_mom1_b =
      (fun i => sampleStd.decay_mom1 * 2 +
        (1 - sampleStd.decay_mom1) * sampleStd.est_mom1_b i) ∧
    (sampleStd.postState (fun _ => 2)).est_mom2_b =
      (fun i => sampleStd.decay_mom2 * 2 ^ 2 +
        (1 - sampleStd.decay_mom2) * sampleStd.est_mom2_b i) ∧
    (sampleStd.postState (fun _ => 2)).decay_mom1_pow =
      sampleStd.decay_mom1_pow * (1 - sampleStd.decay_mom1) ∧
    (sampleStd.postState (fun _ => 2)).decay_mom2_pow =
      sampleStd.decay_mom2_pow * (1 - sampleStd.decay_mom2) ∧
    (sampleStd.postState (fun _ => 2)).step = (fun i =>
      sampleStd.step_rate *
        Real.sqrt (1 - (sampleStd.postState (fun _ => 2)).decay_mom2_pow) /
        (1 - (sampleStd.postState (fun _ => 2)).decay_mom1_pow) *
        (sampleStd.postState (fun _ => 2)).est_mom1_b i /
        (Real.sqrt ((sampleStd.postState (fun _ => 2)).est_mom2_b i) +
          sampleStd.offset)) ∧
    (sampleStd.postState (fun _ => 2)).wrt =
      (fun i => sampleStd.wrt i - (sampleStd.postState (fun _ => 2)).step i)) :=
  ⟨rfl, rfl, iterate_gradient_ok rfl,
    standard_mode_step sampleStd () (fun _ => 2)
      (sampleStd.postState (fun _ => 2)) rfl rfl (iterate_gradient_ok rfl)⟩

/-- C2: in Nesterov mode (momentum = true), a completed iteration with
gradient `g` computes the forward-looking first moment
`m̂ = (1 − decay_mom1)·m / (1 − (1 − decay_mom1)·decay_mom1_pow)
 + decay_mom1·g / (1 − decay_mom1_pow)` and the bias-corrected second
moment `v̂ = v / (1 − decay_mom2_pow)` (with `m`, `v` the freshly updated
biased moments and the decay powers already advanced), and applies
`step = step_rate · m̂ / (sqrt v̂ + offset)`, subtracting it from the
parameter vector in place. -/
theorem nesterov_mode_step (s : Adam n A E) (args : A) (g : Fin n → ℝ)
    (s' : Adam n A E) (hm : s.momentum = true)
    (hg : s.fprime s.wrt args = Except.ok g)
    (h : s.iterate args = Except.ok s') :
    s'.est_mom1_b =
      (fun i => s.decay_mom1 * g i + (1 - s.decay_mom1) * s.est_mom1_b i) ∧
    s'.est_mom2_b =
      (fun i => s.decay_mom2 * g i ^ 2 + (1 - s.decay_mom2) * s.est_mom2_b i) ∧
    s'.decay_mom1_pow = s.decay_mom1_pow * (1 - s.decay_mom1) ∧
    s'.decay_mom2_pow = s.decay_mom2_pow * (1 - s.decay_mom2) ∧
    s'.step = (fun i =>
      s.step_rate *
        ((1 - s.decay_mom1) * s'.est_mom1_b i /
            (1 - (1 - s.decay_mom1) * s'.decay_mom1_pow) +
          s.decay_mom1 * g i / (1 - s'.decay_mom1_pow)) /
        (Real.sqrt (s'.est_mom2_b i / (1 - s'.decay_mom2_pow)) + s.offset)) ∧
    s'.wrt = (fun i => s.wrt i - s'.step i) := by
  rw [iterate_gradient_ok hg] at h
  obtain rfl : s' = s.postState g := (Except.ok.inj h).symm
  refine ⟨rfl, rfl, rfl, rfl, ?_, ?_⟩
  · simp [postState, powAdvanced, hm]
  · rfl

/-- Witness for C2 at `sampleNes` with gradient constantly 2. -/
theorem nesterov_mode_step_witness :
    sampleNes.momentum = true ∧
    sampleNes.fprime sampleNes.wrt () = Except.ok (fun _ => 2) ∧
    sampleNes.iterate () = Except.ok (sampleNes.postState (fun _ => 2)) ∧
    ((sampleNes.postState (fun _ => 2)).est_mom1_b =
      (fun i => sampleNes.decay_mom1 * 2 +
        (1 - sampleNes.decay_mom1) * sampleNes.est_mom1_b i) ∧
    (sampleNes.postState (fun _ => 2)).est_mom2_b =
      (fun i => sampleNes.decay_mom2 * 2 ^ 2 +
        (1 - sampleNes.decay_mom2) * sampleNes.est_mom2_b i) ∧
    (sampleNes.postState (fun _ => 2)).decay_mom1_pow =
      sampleNes.decay_mom1_pow * (1 - sampleNes.decay_mom1) ∧
    (sampleNes.postState (fun _ => 2)).decay_mom2_pow =
      sampleNes.decay_mom2_pow * (1 - sampleNes.decay_mom2) ∧
    (sampleNes.postState (fun _ => 2)).step = (fun i =>
      sampleNes.step_rate *
        ((1 - sampleNes.decay_mom1) * (sampleNes.postState (fun _ => 2)).est_mom1_b i /
            (1 - (1 - sampleNes.decay_mom1) *
              (sampleNes.postState (fun _ => 2)).decay_mom1_pow) +
          sampleNes.decay_mom1 * 2 /
            (1 - (sampleNes.postState (fun _ => 2)).decay_mom1_pow)) /
        (Real.sqrt ((sampleNes.postState (fun _ => 2)).est_mom2_b i /
            (1 - (sampleNes.postState (fun _ => 2)).decay_mom2_pow)) +
          sampleNes.offset)) ∧
    (sampleNes.postState (fun _ => 2)).wrt =
      (fun i => sampleNes.wrt i - (sampleNes.postState (fun _ => 2)).step i)) :=
  ⟨rfl, rfl, iterate_gradient_ok rfl,
    nesterov_mode_step sampleNes () (fun _ => 2)
      (sampleNes.postState (fun _ => 2)) rfl rfl (iterate_gradient_ok rfl)⟩

/-- C4 counterexample: at `sampleErr` (whose gradient function raises),
the pull propagates the exception, but the state it leaves behind does
*not* have `decay_mom1_pow` and `decay_mom2_pow` unchanged — the two
power assignments precede the gradient call in `_iterate`, so they are
already advanced when the exception escapes. -/
theorem gradient_failure_not_transactional :
    sampleErr.iterate () = Except.error ((), sampleErr.powAdvanced) ∧
    sampleErr.powAdvanced.decay_mom1_pow ≠ sampleErr.decay_mom1_pow ∧
    sampleErr.powAdvanced.decay_mom2_pow ≠ sampleErr.decay_mom2_pow := by
  refine ⟨iterate_gradient_error rfl, ?_, ?_⟩ <;>
    norm_num [powAdvanced, sampleErr, sampleStd]

/-- C4 (amended): if the gradient function raises during a pull, the
exception value propagates unmodified to the caller, and the state left
behind has `n_iter`, `est_mom1_b`, `est_mom2_b`, `step` and the parameter
vector unchanged — but the two cumulative decay powers have already been
advanced (multiplied by `1 − decay_mom1` and `1 − decay_mom2`), because
those assignments precede the gradient call. -/
theorem gradient_failure_state (s : Adam n A E) (args : A) (e : E)
    (h : s.fprime s.wrt args = Except.error e) :
    s.iterate args = Except.error (e, s.powAdvanced) ∧
    s.powAdvanced.n_iter = s.n_iter ∧
    s.powAdvanced.est_mom1_b = s.est_mom1_b ∧
    s.powAdvanced.est_mom2_b = s.est_mom2_b ∧
    s.powAdvanced.step = s.step ∧
    s.powAdvanced.wrt = s.wrt ∧
    s.powAdvanced.fprime = s.fprime ∧
    s.powAdvanced.decay_mom1_pow = s.decay_mom1_pow * (1 - s.decay_mom1) ∧
    s.powAdvanced.decay_mom2_pow = s.decay_mom2_pow * (1 - s.decay_mom2) :=
  ⟨iterate_gradient_error h, rfl, rfl, rfl, rfl, rfl, rfl, rfl, rfl⟩

/-- Witness for the amended C4 at `sampleErr`. -/
theorem gradient_failure_state_witness :
    sampleErr.fprime sampleErr.wrt () = Except.error () ∧
    (sampleErr.iterate () = Except.error ((), sampleErr.powAdvanced) ∧
    sampleErr.powAdvanced.n_iter = sampleErr.n_iter ∧
    sampleErr.powAdvanced.est_mom1_b = sampleErr.est_mom1_b ∧
    sampleErr.powAdvanced.est_mom2_b = sampleErr.est_mom2_b ∧
    sampleErr.powAdvanced.step = sampleErr.step ∧
    sampleErr.powAdvanced.wrt = sampleErr.wrt ∧
    sampleErr.powAdvanced.fprime = sampleErr.fprime ∧
    sampleErr.powAdvanced.decay_mom1_pow =
      sampleErr.decay_mom1_pow * (1 - sampleErr.decay_mom1) ∧
    sampleErr.powAdvanced.decay_mom2_pow =
      sampleErr.decay_mom2_pow * (1 - sampleErr.decay_mom2)) :=
  ⟨rfl, gradient_failure_state sampleErr () () rfl⟩

theorem powInvariant_fresh (fp : (Fin n → ℝ) → A → Except E (Fin n → ℝ))
    (w : Fin n → ℝ) (sr d1 d2 : ℝ) (mom : Bool) (off : ℝ) :
    (fresh fp w sr d1 d2 mom off : Adam n A E).powInvariant := by
  simp [fresh, powInvariant]

theorem powInvariant_iterate {s s' : Adam n A E} {args : A}
    (hs : s.powInvariant) (h : s.iterate args = Except.ok s') :
    s'.powInvariant := by
  obtain ⟨g, _, rfl⟩ := iterate_ok_elim h
  obtain ⟨h1, h2⟩ := hs
  constructor
  · show s.decay_mom1_pow * (1 - s.decay_mom1) = (1 - s.decay_mom1) ^ (s.n_iter + 1)
    rw [h1, pow_succ]
  · show s.decay_mom2_pow * (1 - s.decay_mom2) = (1 - s.decay_mom2) ^ (s.n_iter + 1)
    rw [h2, pow_succ]

theorem powInvariant_run {s s' : Adam n A E} {l : List A}
    (hs : s.powInvariant) (h : run s l = Except.ok s') : s'.powInvariant := by
  induction l generalizing s with
  | nil =>
    rw [run_nil] at h
    obtain rfl := Except.ok.inj h
    exact hs
  | cons a l ih =>
    rw [run_cons] at h
    cases hit : s.iterate a with
    | error e => rw [hit] at h; simp at h
    | ok s1 => rw [hit] at h; exact ih (powInvariant_iterate hs hit) h

/-- C5: for every hyperparameter setting and every sequence of completed
iterations from construction, `decay_mom1_pow = (1 − decay_mom1)^n_iter`
and `decay_mom2_pow = (1 − decay_mom2)^n_iter` — at construction
(`n_iter = 0`, powers 1) and after every completed iteration. -/
theorem decay_pow_invariant (fp : (Fin n → ℝ) → A → Except E (Fin n → ℝ))
    (w : Fin n → ℝ) (sr d1 d2 : ℝ) (mom : Bool) (off : ℝ)
    (l : List A) (s' : Adam n A E)
    (h : run (fresh fp w sr d1 d2 mom off) l = Except.ok s') :
    (fresh fp w sr d1 d2 mom off : Adam n A E).powInvariant ∧
      s'.powInvariant :=
  ⟨powInvariant_fresh fp w sr d1 d2 mom off,
    powInvariant_run (powInvariant_fresh fp w sr d1 d2 mom off) h⟩

/-- Witness for C5: a one-step run of `freshSample`. -/
theorem decay_pow_invariant_witness :
    run freshSample [()] = Except.ok (freshSample.postState (fun _ => 2)) ∧
    (freshSample.powInvariant ∧
      (freshSample.postState (fun _ => 2)).powInvariant) :=
  ⟨rfl, decay_pow_invariant _ _ _ _ _ _ _ [()] _ rfl⟩

theorem iterate_config {s s' : Adam n A E} {args : A}
    (h : s.iterate args = Except.ok s') :
    s'.fprime = s.fprime ∧ s'.step_rate = s.step_rate ∧
    s'.decay_mom1 = s.decay_mom1 ∧ s'.decay_mom2 = s.decay_mom2 ∧
    s'.offset = s.offset ∧ s'.momentum = s.momentum := by
  obtain ⟨g, _, rfl⟩ := iterate_ok_elim h
  exact ⟨rfl, rfl, rfl, rfl, rfl, rfl⟩

theorem run_config {s s' : Adam n A E} {l : List A}
    (h : run s l = Except.ok s') :
    s'.fprime = s.fprime ∧ s'.step_rate = s.step_rate ∧
    s'.decay_mom1 = s.decay_mom1 ∧ s'.decay_mom2 = s.decay_mom2 ∧
    s'.offset = s.offset ∧ s'.momentum = s.momentum := by
  induction l generalizing s with
  | nil =>
    rw [run_nil] at h
    obtain rfl := Except.ok.inj h
    exact ⟨rfl, rfl, rfl, rfl, rfl, rfl⟩
  | cons a l ih =>
    rw [run_cons] at h
    cases hit : s.iterate a with
    | error e => rw [hit] at h; simp at h
    | ok s1 =>
      rw [hit] at h
      obtain ⟨f1, r1, d11, d21, o1, m1⟩ := iterate_config hit
      obtain ⟨f2, r2, d12, d22, o2, m2⟩ := ih h
      exact ⟨f2.trans f1, r2.trans r1, d12.trans d11, d22.trans d21,
        o2.trans o1, m2.trans m1⟩

/-- C10: a completed iteration changes at most the parameter vector,
`est_mom1_b`, `est_mom2_b`, `decay_mom1_pow`, `decay_mom2_pow`, `step`
and `n_iter`: the hyperparameter fields `step_rate`, `decay_mom1`,
`decay_mom2`, `offset` and `momentum`, and the stored gradient-function
reference `fprime`, are left exactly as they were. -/
theorem iterate_frame (s : Adam n A E) (args : A) (s' : Adam n A E)
    (h : s.iterate args = Except.ok s') :
    s'.step_rate = s.step_rate ∧ s'.decay_mom1 = s.decay_mom1 ∧
    s'.decay_mom2 = s.decay_mom2 ∧ s'.offset = s.offset ∧
    s'.momentum = s.momentum ∧ s'.fprime = s.fprime := by
  obtain ⟨g, _, rfl⟩ := iterate_ok_elim h
  exact ⟨rfl, rfl, rfl, rfl, rfl, rfl⟩

/-- Witness for C10 at `sampleStd`. -/
theorem iterate_frame_witness :
    sampleStd.iterate () = Except.ok (sampleStd.postState (fun _ => 2)) ∧
    ((sampleStd.postState (fun _ => 2)).step_rate = sampleStd.step_rate ∧
    (sampleStd.postState (fun _ => 2)).decay_mom1 = sampleStd.decay_mom1 ∧
    (sampleStd.postState (fun _ => 2)).decay_mom2 = sampleStd.decay_mom2 ∧
    (sampleStd.postState (fun _ => 2)).offset = sampleStd.offset ∧
    (sampleStd.postState (fun _ => 2)).momentum = sampleStd.momentum ∧
    (sampleStd.postState (fun _ => 2)).fprime = sampleStd.fprime) :=
  ⟨iterate_gradient_ok rfl,
    iterate_frame sampleStd () (sampleStd.postState (fun _ => 2))
      (iterate_gradient_ok rfl)⟩

theorem run_cons_ok {s s1 : Adam n A E} {a : A}
    (h : s.iterate a = Except.ok s1) (l : List A) :
    run s (a :: l) = run s1 l := by
  rw [run_cons, h]

theorem run_ok_append (s : Adam n A E) (l1 l2 : List A) (s1 : Adam n A E)
    (h : run s l1 = Except.ok s1) : run s (l1 ++ l2) = run s1 l2 := by
  induction l1 generalizing s with
  | nil =>
    rw [run_nil] at h
    obtain rfl := Except.ok.inj h
    rfl
  | cons a l ih =>
    rw [run_cons] at h
    cases hit : s.iterate a with
    | error e => rw [hit] at h; simp at h
    | ok s2 =>
      rw [hit] at h
      rw [List.cons_append, run_cons_ok hit]
      exact ih _ h

theorem restoreState_extractState {s t : Adam n A E}
    (hf : t.fprime = s.fprime) (hw : t.wrt = s.wrt)
    (hm : t.momentum = s.momentum) :
    t.restoreState s.extractState = s := by
  cases s
  cases t
  simp_all [restoreState, extractState]

/-- C3: running `l1` (K steps), extracting the ten checkpoint fields,
restoring them into a fresh minimizer (same gradient function, momentum
switch and hyperparameters) holding the parameter vector as it stood
after step K, and running `l2` (N − K more steps) reproduces exactly the
run that an uninterrupted pass over `l1 ++ l2` (N steps) performs — in
particular the same final parameter vector. -/
theorem checkpoint_roundtrip (fp : (Fin n → ℝ) → A → Except E (Fin n → ℝ))
    (w : Fin n → ℝ) (sr d1 d2 : ℝ) (mom : Bool) (off : ℝ)
    (l1 l2 : List A) (sK : Adam n A E)
    (hK : run (fresh fp w sr d1 d2 mom off) l1 = Except.ok sK) :
    run ((fresh fp sK.wrt sr d1 d2 mom off).restoreState sK.extractState) l2 =
      run (fresh fp w sr d1 d2 mom off) (l1 ++ l2) ∧
    (∀ sN sN',
      run ((fresh fp sK.wrt sr d1 d2 mom off).restoreState sK.extractState) l2 =
        Except.ok sN' →
      run (fresh fp w sr d1 d2 mom off) (l1 ++ l2) = Except.ok sN →
      sN'.wrt = sN.wrt) := by
  obtain ⟨hfp, -, -, -, -, hmom⟩ := run_config hK
  have hrestore :
      (fresh fp sK.wrt sr d1 d2 mom off).restoreState sK.extractState = sK :=
    restoreState_extractState (by rw [hfp]; rfl) rfl (by rw [hmom]; rfl)
  have happ := run_ok_append (fresh fp w sr d1 d2 mom off) l1 l2 sK hK
  refine ⟨by rw [hrestore, happ], ?_⟩
  intro sN sN' h1 h2
  rw [hrestore] at h1
  rw [happ, h1] at h2
  rw [Except.ok.inj h2]

/-- Witness for C3: one step, checkpoint, one more step, on
`freshSample`. -/
theorem checkpoint_roundtrip_witness :
    run freshSample [()] = Except.ok (freshSample.postState (fun _ => 2)) ∧
    (run ((fresh (fun _ _ => Except.ok (fun _ => 2))
          ((freshSample.postState (fun _ => 2)).wrt)
          (1/2) (1/10) (1/100) false (1/1000)).restoreState
        (freshSample.postState (fun _ => 2)).extractState) [()] =
      run freshSample ([()] ++ [()]) ∧
    (∀ sN sN' : Adam 1 Unit Unit,
      run ((fresh (fun _ _ => Except.ok (fun _ => 2))
            ((freshSample.postState (fun _ => 2)).wrt)
            (1/2) (1/10) (1/100) false (1/1000)).restoreState
          (freshSample.postState (fun _ => 2)).extractState) [()] =
        Except.ok sN' →
      run freshSample ([()] ++ [()]) = Except.ok sN →
      sN'.wrt = sN.wrt)) :=
  ⟨rfl, checkpoint_roundtrip (fun _ _ => Except.ok (fun _ => 2)) (fun _ => 5)
    (1/2) (1/10) (1/100) false (1/1000) [()] [()]
    (freshSample.postState (fun _ => 2)) rfl⟩

/-- C8: from the initial state (`est_mom1_b = est_mom2_b = 0`,
`decay_mom1_pow = decay_mom2_pow = 1`, `n_iter = 0`), exactly one
completed step in standard mode with gradient `g` yields
`decay_mom1_pow = 1 − decay_mom1`, `decay_mom2_pow = 1 − decay_mom2`
(first powers, not squares), `est_mom1_b = decay_mom1 · g` and
`est_mom2_b = decay_mom2 · g²`. -/
theorem first_step_closed_form (fp : (Fin n → ℝ) → A → Except E (Fin n → ℝ))
    (w : Fin n → ℝ) (sr d1 d2 off : ℝ) (args : A) (g : Fin n → ℝ)
    (s' : Adam n A E)
    (hg : fp w args = Except.ok g)
    (h : (fresh fp w sr d1 d2 false off : Adam n A E).iterate args =
      Except.ok s') :
    s'.decay_mom1_pow = 1 - d1 ∧ s'.decay_mom2_pow = 1 - d2 ∧
    s'.est_mom1_b = (fun i => d1 * g i) ∧
    s'.est_mom2_b = (fun i => d2 * g i ^ 2) ∧
    s'.n_iter = 1 := by
  obtain ⟨g', hg', rfl⟩ := iterate_ok_elim h
  obtain rfl : g' = g := Except.ok.inj ((hg'.symm).trans hg)
  refine ⟨?_, ?_, ?_, ?_, rfl⟩ <;> simp [postState, powAdvanced, fresh]

/-- Witness for C8: one step from `freshSample` with gradient constantly
2. -/
theorem first_step_closed_form_witness :
    (fun _ _ => Except.ok (fun _ => 2) :
        (Fin 1 → ℝ) → Unit → Except Unit (Fin 1 → ℝ)) (fun _ => 5) () =
      Except.ok (fun _ => 2) ∧
    freshSample.iterate () =
      Except.ok (freshSample.postState (fun _ => 2)) ∧
    ((freshSample.postState (fun _ => 2)).decay_mom1_pow = 1 - 1/10 ∧
    (freshSample.postState (fun _ => 2)).decay_mom2_pow = 1 - 1/100 ∧
    (freshSample.postState (fun _ => 2)).est_mom1_b = (fun _ => 1/10 * 2) ∧
    (freshSample.postState (fun _ => 2)).est_mom2_b =
      (fun _ => 1/100 * 2 ^ 2) ∧
    (freshSample.postState (fun _ => 2)).n_iter = 1) :=
  ⟨rfl, iterate_gradient_ok rfl,
    first_step_closed_form (fun _ _ => Except.ok (fun _ => 2)) (fun _ => 5)
      (1/2) (1/10) (1/100) (1/1000) () (fun _ => 2)
      (freshSample.postState (fun _ => 2)) rfl (iterate_gradient_ok rfl)⟩

theorem est_mom2_b_nonneg_iterate {s s' : Adam n A E} {args : A}
    (hd2 : 0 ≤ s.decay_mom2) (hd2' : s.decay_mom2 ≤ 1)
    (hv : ∀ i, 0 ≤ s.est_mom2_b i) (h : s.iterate args = Except.ok s') :
    ∀ i, 0 ≤ s'.est_mom2_b i := by
  obtain ⟨g, _, rfl⟩ := iterate_ok_elim h
  intro i
  show 0 ≤ s.decay_mom2 * g i ^ 2 + (1 - s.decay_mom2) * s.est_mom2_b i
  have h1 : 0 ≤ s.decay_mom2 * g i ^ 2 := mul_nonneg hd2 (sq_nonneg _)
  have h2 : 0 ≤ (1 - s.decay_mom2) * s.est_mom2_b i :=
    mul_nonneg (by linarith) (hv i)
  linarith

theorem est_mom2_b_nonneg_run {s s' : Adam n A E} {l : List A}
    (hd2 : 0 ≤ s.decay_mom2) (hd2' : s.decay_mom2 ≤ 1)
    (hv : ∀ i, 0 ≤ s.est_mom2_b i) (h : run s l = Except.ok s') :
    ∀ i, 0 ≤ s'.est_mom2_b i := by
  induction l generalizing s with
  | nil =>
    rw [run_nil] at h
    obtain rfl := Except.ok.inj h
    exact hv
  | cons a l ih =>
    rw [run_cons] at h
    cases hit : s.iterate a with
    | error e => rw [hit] at h; simp at h
    | ok s1 =>
      rw [hit] at h
      obtain ⟨-, -, -, hd, -, -⟩ := iterate_config hit
      exact ih (hd ▸ hd2) (hd ▸ hd2') (est_mom2_b_nonneg_iterate hd2 hd2' hv hit) h

/-- C9: from construction with `decay_mom2 ∈ (0, 1]`, the second-moment
estimate `est_mom2_b` starts at 0 and stays element-wise non-negative
after every completed iteration, so the square root in the step
denominator is taken of a non-negative value, and with `offset > 0` both
the standard-mode denominator `sqrt(v) + offset` and the Nesterov-mode
denominator `sqrt(v / (1 − decay_mom2_pow)) + offset` are strictly
positive. -/
theorem est_mom2_b_nonneg (fp : (Fin n → ℝ) → A → Except E (Fin n → ℝ))
    (w : Fin n → ℝ) (sr d1 d2 : ℝ) (mom : Bool) (off : ℝ)
    (l : List A) (s' : Adam n A E)
    (hd2 : 0 < d2) (hd2' : d2 ≤ 1) (hoff : 0 < off)
    (h : run (fresh fp w sr d1 d2 mom off) l = Except.ok s') :
    (fresh fp w sr d1 d2 mom off : Adam n A E).est_mom2_b = (fun _ => 0) ∧
    (∀ i, 0 ≤ s'.est_mom2_b i) ∧
    (∀ i, 0 < Real.sqrt (s'.est_mom2_b i) + s'.offset) ∧
    (∀ i, 0 < Real.sqrt (s'.est_mom2_b i / (1 - s'.decay_mom2_pow)) +
      s'.offset) := by
  have hv : ∀ i, 0 ≤ s'.est_mom2_b i :=
    est_mom2_b_nonneg_run (s := fresh fp w sr d1 d2 mom off) hd2.le hd2'
      (fun i => le_refl 0) h
  obtain ⟨-, -, -, -, ho, -⟩ := run_config h
  have hoff' : 0 < s'.offset := by rw [ho]; exact hoff
  exact ⟨rfl, hv,
    fun i => add_pos_of_nonneg_of_pos (Real.sqrt_nonneg _) hoff',
    fun i => add_pos_of_nonneg_of_pos (Real.sqrt_nonneg _) hoff'⟩

/-- Witness for C9: a one-step run of `freshSample`. -/
theorem est_mom2_b_nonneg_witness :
    (0 < (1/100 : ℝ) ∧ (1/100 : ℝ) ≤ 1 ∧ 0 < (1/1000 : ℝ) ∧
      run freshSample [()] = Except.ok (freshSample.postState (fun _ => 2))) ∧
    (freshSample.est_mom2_b = (fun _ => 0) ∧
    (∀ i, 0 ≤ (freshSample.postState (fun _ => 2)).est_mom2_b i) ∧
    (∀ i, 0 < Real.sqrt ((freshSample.postState (fun _ => 2)).est_mom2_b i) +
      (freshSample.postState (fun _ => 2)).offset) ∧
    (∀ i, 0 < Real.sqrt ((freshSample.postState (fun _ => 2)).est_mom2_b i /
        (1 - (freshSample.postState (fun _ => 2)).decay_mom2_pow)) +
      (freshSample.postState (fun _ => 2)).offset)) :=
  ⟨⟨by norm_num, by norm_num, by norm_num, rfl⟩,
    est_mom2_b_nonneg (fun _ _ => Except.ok (fun _ => 2)) (fun _ => 5)
      (1/2) (1/10) (1/100) false (1/1000) [()]
      (freshSample.postState (fun _ => 2))
      (by norm_num) (by norm_num) (by norm_num) rfl⟩

/-- C6 counterexample: at `decay_mom1 = 1/10`, `decay_mom2 = 9/10` the
condition as the claim words it — `(1 − 2·decay_mom1)/sqrt(decay_mom2) < 1`
— is satisfied, yet the constructor emits the stability warning, because
the code divides by `sqrt(1 − decay_mom2)`, not `sqrt(decay_mom2)`. -/
theorem stability_condition_mismatch :
    init (fun _ _ => Except.ok (fun _ => 2)) (fun _ => 5)
        (1/2) (1/10) (9/10) false (1/1000) =
      Except.ok (fresh (fun _ _ => Except.ok (fun _ => 2)) (fun _ => 5)
        (1/2) (1/10) (9/10) false (1/1000) : Adam 1 Unit Unit) ∧
    specStabilityCondition (1/10) (9/10) ∧ stabilityWarned (1/10) (9/10) := by
  refine ⟨?_, ?_, ?_⟩
  · have c3 : ¬ (Real.sqrt (1 - (9/10 : ℝ)) = 0) := by
      rw [Real.sqrt_eq_zero']
      push_neg
      norm_num
    rw [init, if_neg (not_not_intro ⟨by norm_num, by norm_num⟩),
      if_neg (not_not_intro ⟨by norm_num, by norm_num⟩), if_neg c3]
  · unfold specStabilityCondition
    rw [div_lt_one (Real.sqrt_pos.mpr (by norm_num))]
    rw [show (1:ℝ) - 2 * (1/10) = 4/5 by norm_num]
    rw [Real.lt_sqrt (by norm_num)]
    norm_num
  · unfold stabilityWarned
    rw [not_lt, one_le_div (Real.sqrt_pos.mpr (by norm_num))]
    exact Real.sqrt_le_iff.mpr ⟨by norm_num, by norm_num⟩

/-- C6 (amended): the convergence-stability condition the constructor
actually checks is `(1 − 2·decay_mom1) / sqrt(1 − decay_mom2) < 1` — the
denominator is the square root of the *complement* of `decay_mom2`.  For
`decay_mom1 ∈ (0,1]` and `decay_mom2 ∈ (0,1)` construction succeeds
whether or not the condition holds, and the non-fatal advisory is emitted
exactly when the condition fails. -/
theorem stability_warning_characterisation
    (fp : (Fin n → ℝ) → A → Except E (Fin n → ℝ)) (w : Fin n → ℝ)
    (sr d1 d2 : ℝ) (mom : Bool) (off : ℝ)
    (h1 : 0 < d1) (h1' : d1 ≤ 1) (h2 : 0 < d2) (h2' : d2 < 1) :
    init fp w sr d1 d2 mom off =
      Except.ok (fresh fp w sr d1 d2 mom off) ∧
    (stabilityWarned d1 d2 ↔ ¬ ((1 - 2 * d1) / Real.sqrt (1 - d2) < 1)) := by
  constructor
  · have c3 : ¬ (Real.sqrt (1 - d2) = 0) := by
      rw [Real.sqrt_eq_zero']
      push_neg
      linarith
    rw [init, if_neg (not_not_intro ⟨h1, h1'⟩),
      if_neg (not_not_intro ⟨h2, h2'.le⟩), if_neg c3]
  · unfold stabilityWarned
    rw [show (1:ℝ) - d1 * 2 = 1 - 2 * d1 by ring]

/-- Witness for the amended C6. -/
theorem stability_warning_characterisation_witness :
    (0 < (1/10 : ℝ) ∧ (1/10 : ℝ) ≤ 1 ∧ 0 < (1/100 : ℝ) ∧ (1/100 : ℝ) < 1) ∧
    (init (fun _ _ => Except.ok (fun _ => 2)) (fun _ => 5)
        (1/2) (1/10) (1/100) false (1/1000) =
      Except.ok (fresh (fun _ _ => Except.ok (fun _ => 2)) (fun _ => 5)
        (1/2) (1/10) (1/100) false (1/1000) : Adam 1 Unit Unit) ∧
    (stabilityWarned (1/10) (1/100) ↔
      ¬ ((1 - 2 * (1/10)) / Real.sqrt (1 - 1/100) < 1))) :=
  ⟨⟨by norm_num, by norm_num, by norm_num, by norm_num⟩,
    stability_warning_characterisation (fun _ _ => Except.ok (fun _ => 2))
      (fun _ => 5) (1/2) (1/10) (1/100) false (1/1000)
      (by norm_num) (by norm_num) (by norm_num) (by norm_num)⟩

/-- C7: evaluating the constructor at the claimed-valid input
`decay_mom2 = 1` (with all other arguments at their documented defaults).
The two domain checks pass, but the stability check then divides by
`(1 - 1) ** 0.5 = 0.0`, so construction raises `ZeroDivisionError`
instead of succeeding — the code slip the claim's "construction succeeds
on all of (0, 1]" runs into. -/
theorem init_zero_division_at_decay_mom2_one :
    init (n := 1) (A := Unit) (E := Unit) (fun _ _ => Except.ok (fun _ => 0))
      (fun _ => 0) (2/10000) (1/10) 1 false (1/100000000) =
      Except.error InitError.zeroDivisionError := by
  rw [init, if_neg (not_not_intro ⟨by norm_num, by norm_num⟩),
    if_neg (not_not_intro ⟨by norm_num, by norm_num⟩),
    if_pos (by norm_num [Real.sqrt_zero])]

end Adam

end Climin
